import Mathlib

/-!
Shallow embedding of `src/can/broadcastmanager.py` (python-can broadcast
manager): the cyclic-send task hierarchy, its construction-time validation,
`modify_data`, the thread lifecycle flags (`stopped`, `end_time`), and the
software-timed run loop `ThreadBasedCyclicSendTask._run`, modelled as a
deterministic step function over an oracle of per-iteration timings and
caller actions.

Python `float` timestamps and periods are modelled as integers (only ordered-ring operations — addition, subtraction, max, comparison — are applied to them, so any discretization of the real timeline serves); transport
(`bus.send`) success or failure, lock-wait times, and the durations between
the loop's successive `time.time()` calls are supplied by the per-iteration
environment `IterEnv`.
-/

instance {ε α : Type} [DecidableEq ε] [DecidableEq α] : DecidableEq (Except ε α) :=
  fun x y =>
  match x, y with
  | .ok a, .ok b =>
    if h : a = b then .isTrue (by rw [h]) else .isFalse (by intro c; injection c; contradiction)
  | .error a, .error b =>
    if h : a = b then .isTrue (by rw [h]) else .isFalse (by intro c; injection c; contradiction)
  | .ok _, .error _ => .isFalse (by intro c; injection c)
  | .error _, .ok _ => .isFalse (by intro c; injection c)

/-- A CAN message as consumed by the broadcast manager: only the fields the
broadcast manager reads (`arbitration_id`, `channel`, `data`).  The channel
is an opaque equality-comparable identifier, modelled as a natural. -/
structure Message where
  arbitration_id : Nat
  channel : Nat
  data : List Nat
deriving DecidableEq

instance : Inhabited Message := ⟨⟨0, 0, []⟩⟩

/-- The dynamically-typed `messages` argument of the Python constructors:
a bare `can.Message`, a Python `list` of messages, a Python `tuple` of
messages, or a value of any other type. -/
inductive MessagesArg where
  | single (m : Message)
  | list (ms : List Message)
  | tuple (ms : List Message)
  | other
deriving DecidableEq

/-- The exceptions raised by `broadcastmanager.py`.  The first five are the
`ValueError`s raised explicitly in the source (the spec calls all of them
`InvalidArgument`); `typeErrorTooManyArgs` is the `TypeError` Python raises
when a call passes more positional arguments than the callee accepts. -/
inductive PyError where
  | valueErrorNotListTupleMessage
  | valueErrorEmpty
  | valueErrorDifferentArbitrationIds
  | valueErrorDifferentChannels
  | valueErrorLengthMismatch
  | typeErrorTooManyArgs
deriving DecidableEq

/-- Discriminates the `ValueError`s (the spec's `InvalidArgument`) from the
`TypeError`. -/
def PyError.isValueError : PyError → Bool
  | .typeErrorTooManyArgs => false
  | _ => true

/-- The body of `CyclicSendTaskABC._check_and_convert_messages` after the
isinstance-based normalization (source lines 57-73): reject an empty
sequence, then require every message to share the first message's
arbitration id, then require every message to share the first message's
channel, and return the sequence. -/
def checkUniform : List Message → Except PyError (List Message)
  | [] => .error .valueErrorEmpty
  | first :: rest =>
    if !((first :: rest).all (fun m => m.arbitration_id == first.arbitration_id)) then
      .error .valueErrorDifferentArbitrationIds
    else if !((first :: rest).all (fun m => m.channel == first.channel)) then
      .error .valueErrorDifferentChannels
    else
      .ok (first :: rest)

/-- `CyclicSendTaskABC._check_and_convert_messages` (source lines 50-73):
a value that is neither a list nor a tuple is wrapped in a one-element list
when it is a `can.Message` and rejected with `ValueError` otherwise; the
resulting sequence must be non-empty and uniform in arbitration id and
channel. -/
def check_and_convert_messages (messages : MessagesArg) : Except PyError (List Message) :=
  match messages with
  | .list ms => checkUniform ms
  | .tuple ms => checkUniform ms
  | .single m => checkUniform [m]
  | .other => .error .valueErrorNotListTupleMessage

/-- The state stored by `CyclicSendTaskABC.__init__` (source lines 37-48):
the shared arbitration id taken from the first message, the period, and the
validated message sequence. -/
structure CyclicSendTask where
  arbitration_id : Nat
  period : ℤ
  messages : List Message
deriving DecidableEq

/-- `CyclicSendTaskABC.__init__` (source lines 37-48): validate and convert
the messages, then store the first message's arbitration id, the period and
the sequence. -/
def CyclicSendTask.init (messages : MessagesArg) (period : ℤ) :
    Except PyError CyclicSendTask :=
  match check_and_convert_messages messages with
  | .error e => .error e
  | .ok msgs =>
    .ok { arbitration_id := msgs.headI.arbitration_id
          period := period
          messages := msgs }

/-- The claim's success condition for construction, stated from the claim's
words for comparison with the code: after normalizing a single `Message`
into a one-element sequence, the input is a non-empty list or tuple of
messages all sharing the first message's arbitration id and channel; any
other non-sequence input is invalid. -/
def claimedValidInput (input : MessagesArg) : Bool :=
  match input with
  | .single _ => true
  | .list ms => claimedUniformNonEmpty ms
  | .tuple ms => claimedUniformNonEmpty ms
  | .other => false
where
  /-- Non-empty, and every member shares the first member's arbitration id
  and channel. -/
  claimedUniformNonEmpty : List Message → Bool
  | [] => false
  | first :: rest =>
    (first :: rest).all
      (fun m => m.arbitration_id == first.arbitration_id && m.channel == first.channel)

/-- The per-object state of `ThreadBasedCyclicSendTask` (source lines
138-161) together with the attributes inherited from the hierarchy:
`arbitration_id`, `period` and `messages` from `CyclicSendTaskABC`,
`duration` from `LimitedDurationCyclicSendTaskABC`, and the concrete
task's own `stopped`, thread handle (abstracted to liveness) and
`end_time`.  The `bus` and `send_lock` attributes are not data: their
behaviour is supplied to the run loop by `IterEnv`. -/
structure ThreadTask where
  arbitration_id : Nat
  period : ℤ
  messages : List Message
  duration : Option ℤ
  stopped : Bool
  threadAlive : Bool
  end_time : Option ℤ
deriving DecidableEq

instance : Inhabited ThreadTask := ⟨⟨0, 1, [], none, true, false, none⟩⟩

/-- `ThreadBasedCyclicSendTask.stop` (source lines 152-153): set the
`stopped` flag; nothing else. -/
def ThreadTask.stop (t : ThreadTask) : ThreadTask :=
  { t with stopped := true }

/-- `ThreadBasedCyclicSendTask.start` (source lines 155-161): clear the
`stopped` flag and, when the thread is absent or dead, spawn a fresh
daemon thread running `_run`.  It reads no clock and never touches
`end_time`. -/
def ThreadTask.start (t : ThreadTask) : ThreadTask :=
  let t1 := { t with stopped := false }
  if !t1.threadAlive then { t1 with threadAlive := true } else t1

/-- `ThreadBasedCyclicSendTask.__init__` (source lines 143-150): run the
base-class validation and store the period and duration, set
`stopped = True` and no thread, compute
`end_time = time.time() + duration if duration else None` — `now` is the
value `time.time()` returns at construction, and a duration of `None` or
`0` leaves `end_time` as `None` — and finally call `self.start()`. -/
def ThreadTask.init (messages : MessagesArg) (period : ℤ) (duration : Option ℤ)
    (now : ℤ) : Except PyError ThreadTask :=
  match CyclicSendTask.init messages period with
  | .error e => .error e
  | .ok base =>
    .ok (ThreadTask.start
      { arbitration_id := base.arbitration_id
        period := base.period
        messages := base.messages
        duration := duration
        stopped := true
        threadAlive := false
        end_time :=
          match duration with
          | some d => if d == 0 then none else some (now + d)
          | none => none })

/-- `ModifiableCyclicTaskABC.modify_data` (source lines 102-118), inherited
by the concrete thread task, in state-passing form mirroring the statement
order of the body: first `_check_and_convert_messages` (raising leaves the
task untouched), then the length comparison (raising leaves the task
untouched), and only then the single assignment `self.messages = messages`.
The stored `arbitration_id` attribute is never reassigned. -/
def ThreadTask.modify_data (t : ThreadTask) (messages : MessagesArg) :
    Except PyError Unit × ThreadTask :=
  match check_and_convert_messages messages with
  | .error e => (.error e, t)
  | .ok msgs =>
    if t.messages.length != msgs.length then
      (.error .valueErrorLengthMismatch, t)
    else
      (.ok (), { t with messages := msgs })

/-- The condition `self.end_time is not None and time.time() >= self.end_time`
from `_run` (source line 174). -/
def endTimePassed (end_time : Option ℤ) (now : ℤ) : Bool :=
  match end_time with
  | some et => decide (et ≤ now)
  | none => false

/-- Observable events of one run-loop iteration, in the order the
corresponding statements of `_run` (source lines 163-179) execute. -/
inductive Ev where
  | acquireLock
  | recordStarted (t : ℤ)
  | send (m : Option Message)
  | logException
  | releaseLock
  | endTimeCheck (passed : Bool)
  | advanceIndex (i : Nat)
  | sleep (d : ℤ)
deriving DecidableEq

/-- The oracle for one iteration of the run loop: the caller actions that
take effect before the iteration's `while` check (a pending `stop()` call,
a pending `modify_data` call), whether `bus.send` succeeds, and the real
time consumed waiting for the lock, inside `bus.send`, between leaving the
lock block and the end-time check's `time.time()`, and between that check
and the drift computation's `time.time()`. -/
structure IterEnv where
  stopRequest : Bool
  modifyArg : Option MessagesArg
  lockWait : ℤ
  sendOk : Bool
  sendDur : ℤ
  checkGap : ℤ
  delayGap : ℤ

/-- The state of one execution of `_run`: the shared task object, the local
`msg_index`, the current clock value, and observability artefacts — the
successfully sent messages, the number of exceptions passed to
`log.exception`, and the event trace. -/
structure RunState where
  task : ThreadTask
  msgIndex : Nat
  now : ℤ
  sendLog : List Message
  excLogged : Nat
  trace : List Ev
deriving DecidableEq

/-- One execution of the body of the `while not self.stopped` loop of
`_run` (source lines 165-179).  Returns the new state and whether the loop
continues: `bus.send` raising logs the exception and breaks out of the
loop (the `with` block releases the lock); a passed end-time check breaks
before the index advance; otherwise the index advances modulo the current
sequence length and the loop sleeps `max(0, period - (time.time() -
started))`, where `started` was read right after the lock was acquired. -/
def runIter (st : RunState) (env : IterEnv) : RunState × Bool :=
  let started := st.now + env.lockWait
  let msg := st.task.messages[st.msgIndex]?
  let tSend := started + env.sendDur
  if env.sendOk then
    let tCheck := tSend + env.checkGap
    let passed := endTimePassed st.task.end_time tCheck
    let st1 :=
      { st with
        now := tCheck
        sendLog := st.sendLog ++ msg.toList
        trace := st.trace ++
          [.acquireLock, .recordStarted started, .send msg, .releaseLock,
           .endTimeCheck passed] }
    if passed then
      (st1, false)
    else
      let newIdx := (st.msgIndex + 1) % st.task.messages.length
      let tDelay := tCheck + env.delayGap
      let slp := max 0 (st.task.period - (tDelay - started))
      ({ st1 with
          msgIndex := newIdx
          now := tDelay + slp
          trace := st1.trace ++ [.advanceIndex newIdx, .sleep slp] },
       true)
  else
    ({ st with
        now := tSend
        excLogged := st.excLogged + 1
        trace := st.trace ++
          [.acquireLock, .recordStarted started, .logException, .releaseLock] },
     false)

/-- Caller actions taking effect between two iterations: a pending
`stop()` sets the shared `stopped` flag; a pending `modify_data` replaces
the shared sequence when its argument validates (its exception, if any,
surfaces in the caller's thread, not in the loop). -/
def applyCaller (st : RunState) (env : IterEnv) : RunState :=
  let st1 := if env.stopRequest then { st with task := st.task.stop } else st
  match env.modifyArg with
  | some arg => { st1 with task := (st1.task.modify_data arg).2 }
  | none => st1

/-- The `while not self.stopped` loop of `_run` (source lines 165-179),
driven by a finite oracle list; the loop also stops when the oracle is
exhausted. -/
def runLoop : RunState → List IterEnv → RunState
  | st, [] => st
  | st, env :: rest =>
    let st1 := applyCaller st env
    if st1.task.stopped then st1
    else
      match runIter st1 env with
      | (st2, true) => runLoop st2 rest
      | (st2, false) => st2

/-- `ThreadBasedCyclicSendTask._run` (source lines 163-179): `msg_index`
starts at `0` and the loop body repeats while the task is not stopped. -/
def ThreadTask.run (t : ThreadTask) (startTime : ℤ) (envs : List IterEnv) : RunState :=
  runLoop
    { task := t, msgIndex := 0, now := startTime, sendLog := [],
      excLogged := 0, trace := [] }
    envs

/-- The two-message fixture of the spec's concrete scenario (id 0x401). -/
def m401 : Message := ⟨0x401, 0, [0x11, 0x11, 0x11, 0x11, 0x11, 0x11]⟩

/-- Second message sharing arbitration id 0x401 and channel 0. -/
def m401b : Message := ⟨0x401, 0, [0x22, 0x22, 0x22, 0x22, 0x22, 0x22]⟩

/-- A message with arbitration id 1. -/
def mId1 : Message := ⟨1, 0, [0]⟩

/-- A message with arbitration id 2 (same channel as `mId1`). -/
def mId2 : Message := ⟨2, 0, [0]⟩

/-- Extracts the constructed task from a successful construction. -/
def taskOrDefault (r : Except PyError ThreadTask) : ThreadTask :=
  r.toOption.getD default

/-- A freshly constructed two-message task, period 1, no duration. -/
def tF : ThreadTask := taskOrDefault (ThreadTask.init (.list [m401, m401b]) 1 none 0)

/-- A task over the single message `mId1`. -/
def tC3 : ThreadTask := taskOrDefault (ThreadTask.init (.single mId1) 1 none 0)

/-- A task constructed at time 0 with duration 5. -/
def tC2 : ThreadTask := taskOrDefault (ThreadTask.init (.single m401) 1 (some 5) 0)

/-- A task constructed at time 0 with duration 1. -/
def tD : ThreadTask := taskOrDefault (ThreadTask.init (.list [m401]) 1 (some 1) 0)

/-- An uneventful iteration: no caller action, instantaneous lock, send
succeeding instantly. -/
def envOk : IterEnv :=
  { stopRequest := false, modifyArg := none, lockWait := 0, sendOk := true,
    sendDur := 0, checkGap := 0, delayGap := 0 }

/-- An iteration whose `bus.send` raises. -/
def envFail : IterEnv := { envOk with sendOk := false }

/-- An iteration that waits one second for the lock. -/
def envLockWait : IterEnv := { envOk with lockWait := 1 }

/-- An iteration whose send takes two seconds. -/
def envSlowSend : IterEnv := { envOk with sendDur := 2 }

/-- Python positional binding of a call that passes three positional
arguments (beyond `self`) to an `__init__` accepting two parameters
(`messages`, `period`): the binding itself raises `TypeError`, so the
callee body — `init2` — never runs. -/
def callInitTwoParamsWithThreeArgs
    (_init2 : MessagesArg → ℤ → Except PyError CyclicSendTask)
    (_arg1 : MessagesArg) (_arg2 : ℤ) (_arg3 : ℤ) : Except PyError CyclicSendTask :=
  .error .typeErrorTooManyArgs

/-- `MultiRateCyclicSendTaskABC.__init__` (source lines 125-135): its body
is exactly `super().__init__(channel, messages, subsequent_period)`, which
passes three positional arguments to `CyclicSendTaskABC.__init__(self,
messages, period)`; `count` and `initial_period` are never used.  The
parameter types follow the claim's reading (`channel` in the position of a
messages argument, `messages` in the position of a period). -/
def MultiRateCyclicSendTask.init (channel : MessagesArg) (messages : ℤ)
    (_count : ℤ) (_initial_period : ℤ) (subsequent_period : ℤ) :
    Except PyError CyclicSendTask :=
  callInitTwoParamsWithThreeArgs CyclicSendTask.init channel messages subsequent_period

/-- The claim's reading of the multi-rate constructor, stated from the
claim's words for comparison with the code: forward `channel` to the base
constructor's messages parameter and `messages` to its period parameter,
dropping the remaining arguments. -/
def MultiRateCyclicSendTask.initClaimed (channel : MessagesArg) (messages : ℤ)
    (_count : ℤ) (_initial_period : ℤ) (_subsequent_period : ℤ) :
    Except PyError CyclicSendTask :=
  CyclicSendTask.init channel messages

/-- The claim's version of `start`, stated from the claim's words for
comparison with the code: a restart at time `now` re-arms the
duration-derived `end_time` as `now + duration`. -/
def startClaimed (t : ThreadTask) (now : ℤ) : ThreadTask :=
  { t.start with end_time := t.duration.map (fun d => now + d) }

/-- An iteration carrying a pending `modify_data` with the two-message
sequence swapped (valid, same length). -/
def envMod : IterEnv := { envOk with modifyArg := some (.list [m401b, m401]) }

theorem list_all_and_split (l : List Message) (f g : Message → Bool) :
    (l.all fun m => f m && g m) = (l.all f && l.all g) := by
  induction l with
  | nil => rfl
  | cons a t ih =>
    simp only [List.all_cons, ih]
    cases f a <;> cases g a <;> cases t.all f <;> cases t.all g <;> rfl

theorem checkUniform_spec (l : List Message) :
    (claimedValidInput.claimedUniformNonEmpty l = true → checkUniform l = .ok l) ∧
    (claimedValidInput.claimedUniformNonEmpty l = false →
      ∃ e, checkUniform l = .error e ∧ e.isValueError = true) := by
  cases l with
  | nil =>
    refine ⟨?_, ?_⟩
    · intro h; cases h
    · intro _; exact ⟨.valueErrorEmpty, rfl, rfl⟩
  | cons first rest =>
    have hsplit :
        claimedValidInput.claimedUniformNonEmpty (first :: rest) =
          (((first :: rest).all fun m => m.arbitration_id == first.arbitration_id) &&
            ((first :: rest).all fun m => m.channel == first.channel)) := by
      show ((first :: rest).all
          fun m => m.arbitration_id == first.arbitration_id && m.channel == first.channel) = _
      exact list_all_and_split (first :: rest) _ _
    rw [hsplit]
    by_cases hid : ((first :: rest).all fun m => m.arbitration_id == first.arbitration_id) = true
    · by_cases hch : ((first :: rest).all fun m => m.channel == first.channel) = true
      · refine ⟨?_, ?_⟩
        · intro _; simp [checkUniform, hid, hch]
        · intro h; rw [hid, hch] at h; cases h
      · refine ⟨?_, ?_⟩
        · intro h
          rw [hid, Bool.true_and] at h
          exact absurd h hch
        · intro _
          refine ⟨.valueErrorDifferentChannels, ?_, rfl⟩
          simp [checkUniform, hid, Bool.eq_false_iff.mpr hch]
    · refine ⟨?_, ?_⟩
      · intro h
        rw [Bool.eq_false_iff.mpr hid, Bool.false_and] at h
        cases h
      · intro _
        refine ⟨.valueErrorDifferentArbitrationIds, ?_, rfl⟩
        simp [checkUniform, Bool.eq_false_iff.mpr hid]

theorem init_spec_of_uniform (arg : MessagesArg) (ms : List Message) (p : ℤ)
    (h1 : check_and_convert_messages arg = checkUniform ms)
    (h2 : claimedValidInput arg = claimedValidInput.claimedUniformNonEmpty ms) :
    (claimedValidInput arg = true →
      ∃ first rest, check_and_convert_messages arg = .ok (first :: rest) ∧
        CyclicSendTask.init arg p =
          .ok { arbitration_id := first.arbitration_id, period := p,
                messages := first :: rest }) ∧
    (claimedValidInput arg = false →
      ∃ e, CyclicSendTask.init arg p = .error e ∧ e.isValueError = true) := by
  rw [h2]
  refine ⟨?_, ?_⟩
  · intro hv
    cases ms with
    | nil => cases hv
    | cons first rest =>
      have hok := (checkUniform_spec (first :: rest)).1 hv
      refine ⟨first, rest, ?_, ?_⟩
      · rw [h1, hok]
      · simp [CyclicSendTask.init, h1, hok]
  · intro hv
    obtain ⟨e, he, hve⟩ := (checkUniform_spec ms).2 hv
    exact ⟨e, by simp [CyclicSendTask.init, h1, he], hve⟩

theorem modify_data_snd_length (t : ThreadTask) (arg : MessagesArg) :
    ((t.modify_data arg).2).messages.length = t.messages.length := by
  unfold ThreadTask.modify_data
  cases hc : check_and_convert_messages arg with
  | error e => rfl
  | ok msgs =>
    cases hb : t.messages.length != msgs.length with
    | true => simp [hb]
    | false =>
      have hlen : t.messages.length = msgs.length := by simpa using hb
      simp [hb, hlen]

theorem modify_data_error_snd (t : ThreadTask) (arg : MessagesArg) (e : PyError)
    (he : (t.modify_data arg).1 = .error e) : (t.modify_data arg).2 = t := by
  unfold ThreadTask.modify_data at he ⊢
  cases hc : check_and_convert_messages arg with
  | error e2 => rfl
  | ok msgs =>
    rw [hc] at he
    cases hb : t.messages.length != msgs.length with
    | true => simp [hb]
    | false => simp [hb] at he

theorem applyCaller_msgIndex (st : RunState) (env : IterEnv) :
    (applyCaller st env).msgIndex = st.msgIndex := by
  unfold applyCaller
  cases env.modifyArg <;> cases env.stopRequest <;> simp [ThreadTask.stop]

theorem applyCaller_messages_length (st : RunState) (env : IterEnv) :
    (applyCaller st env).task.messages.length = st.task.messages.length := by
  unfold applyCaller
  cases env.modifyArg <;> cases env.stopRequest <;>
    simp [ThreadTask.stop, modify_data_snd_length]

theorem runIter_task_eq (st : RunState) (env : IterEnv) :
    ((runIter st env).1).task = st.task := by
  unfold runIter
  cases env.sendOk with
  | false => rfl
  | true =>
    cases hp : endTimePassed st.task.end_time (st.now + env.lockWait + env.sendDur + env.checkGap) with
    | true => simp [hp]
    | false => simp [hp]

theorem runIter_msgIndex_lt (st : RunState) (env : IterEnv)
    (h : st.msgIndex < st.task.messages.length) :
    ((runIter st env).1).msgIndex < st.task.messages.length := by
  have hpos : 0 < st.task.messages.length := Nat.lt_of_le_of_lt (Nat.zero_le _) h
  unfold runIter
  cases env.sendOk with
  | false => exact h
  | true =>
    cases hp : endTimePassed st.task.end_time (st.now + env.lockWait + env.sendDur + env.checkGap) with
    | true => simpa [hp] using h
    | false =>
      simp only [hp]
      simpa using Nat.mod_lt (st.msgIndex + 1) hpos

theorem runLoop_msgIndex_lt (envs : List IterEnv) : ∀ st : RunState,
    st.msgIndex < st.task.messages.length →
    (runLoop st envs).msgIndex < (runLoop st envs).task.messages.length := by
  induction envs with
  | nil => intro st h; exact h
  | cons env rest ih =>
    intro st h
    have h1 : (applyCaller st env).msgIndex < (applyCaller st env).task.messages.length := by
      rw [applyCaller_msgIndex, applyCaller_messages_length]; exact h
    show (runLoop st (env :: rest)).msgIndex < _
    unfold runLoop
    cases hs : (applyCaller st env).task.stopped with
    | true => simp only [hs, if_true]; exact h1
    | false =>
      simp only [hs, Bool.false_eq_true, if_false]
      have hidx := runIter_msgIndex_lt (applyCaller st env) env h1
      have htask := runIter_task_eq (applyCaller st env) env
      cases hri : runIter (applyCaller st env) env with
      | mk st2 cont =>
        rw [hri] at hidx htask
        cases cont with
        | true =>
          exact ih st2 (by rw [htask]; exact hidx)
        | false =>
          show st2.msgIndex < st2.task.messages.length
          rw [htask]; exact hidx

/-- Claim C8: `stop()` on the concrete software-timed task is idempotent —
stopping twice produces the same end state as stopping once, a stop on an
already-stopped task is a no-op, and `stop` is a total function that raises
nothing. -/
theorem C8_stop_idempotent (t : ThreadTask) :
    t.stop.stop = t.stop ∧ t.stop.stopped = true ∧ (t.stopped = true → t.stop = t) := by
  refine ⟨rfl, rfl, fun h => ?_⟩
  cases t with
  | mk a p m d s th e =>
    cases s with
    | true => rfl
    | false => exact Bool.noConfusion h

/-- Witness for C8 at a concrete already-stopped task. -/
theorem C8_witness : tF.stop.stop = tF.stop :=
  (C8_stop_idempotent tF.stop).2.2 rfl

/-- Counterexample to claim C2: the task constructed at time 0 with
duration 5 has `end_time = 5`; stopping it and restarting it at time 10
leaves `end_time = 5`, whereas the claim's re-arming `start`
(`startClaimed`) would set `end_time = 10 + 5 = 15`.  `start` (source lines
155-161) reads no clock and never recomputes `end_time`. -/
theorem C2_counterexample :
    ThreadTask.init (.single m401) 1 (some 5) 0 = .ok tC2 ∧
    tC2.stop.start.end_time = some 5 ∧
    (startClaimed tC2.stop 10).end_time = some 15 ∧
    tC2.stop.start.end_time ≠ (startClaimed tC2.stop 10).end_time := by decide

/-- Claim C2, amended: `end_time` is computed once, at construction, as
construction time plus duration (when the duration is non-None and
non-zero); neither `start` nor `stop` ever changes it, so a restart keeps
the construction-time `end_time` instead of re-arming it. -/
theorem C2_end_time_fixed_at_construction (t : ThreadTask) (msgs : MessagesArg)
    (p d now : ℤ) (t2 : ThreadTask)
    (hinit : ThreadTask.init msgs p (some d) now = .ok t2) (hd : d ≠ 0) :
    t.start.end_time = t.end_time ∧ t.stop.end_time = t.end_time ∧
    t2.end_time = some (now + d) := by
  refine ⟨?_, rfl, ?_⟩
  · unfold ThreadTask.start
    cases t.threadAlive <;> rfl
  · cases hb : CyclicSendTask.init msgs p with
    | error e => rw [ThreadTask.init, hb] at hinit; cases hinit
    | ok base =>
      rw [ThreadTask.init, hb] at hinit
      injection hinit with h
      rw [← h]
      unfold ThreadTask.start
      have hdb : (d == 0) = false := by simpa using hd
      simp [hdb]

/-- Witness for C2 (amended) at the concrete duration-5 task `tC2`. -/
theorem C2_witness :
    tF.start.end_time = tF.end_time ∧ tF.stop.end_time = tF.end_time ∧
    tC2.end_time = some (0 + 5) :=
  C2_end_time_fixed_at_construction tF (.single m401) 1 5 0 tC2 (by decide) (by decide)

/-- Counterexample to claim C3: the task `tC3` holds messages with
arbitration id 1, yet `modify_data` with a (internally consistent)
sequence whose shared arbitration id is 2 succeeds — no `InvalidArgument`
is raised — and swaps the stored messages, because `modify_data` (source
lines 102-118) re-runs only `_check_and_convert_messages` on the new
sequence and never compares it with the task's current
`arbitration_id`/channel. -/
theorem C3_counterexample :
    (tC3.modify_data (.list [mId2])).1 = .ok () ∧
    (tC3.modify_data (.list [mId2])).2.messages = [mId2] ∧
    mId2.arbitration_id ≠ tC3.arbitration_id := by decide

/-- Claim C3, amended: `modify_data` validates only that the new messages
are internally consistent (non-empty, sharing one arbitration id and one
channel among themselves) and that the length is preserved; any such
sequence is accepted regardless of the task's current arbitration id or
channel, and the task's `arbitration_id` attribute keeps its old value
even when the new messages carry a different id. -/
theorem C3_modify_checks_only_internal_consistency (t : ThreadTask)
    (arg : MessagesArg) (msgs : List Message)
    (hok : check_and_convert_messages arg = .ok msgs)
    (hlen : msgs.length = t.messages.length) :
    t.modify_data arg = (.ok (), { t with messages := msgs }) ∧
    ((t.modify_data arg).2).arbitration_id = t.arbitration_id := by
  have hb : (t.messages.length != msgs.length) = false := by simp [hlen]
  have hmain : t.modify_data arg = (.ok (), { t with messages := msgs }) := by
    unfold ThreadTask.modify_data
    rw [hok]
    simp [hb]
  exact ⟨hmain, by rw [hmain]⟩

/-- Witness for C3 (amended): a same-length sequence with a different
shared arbitration id is accepted and the attribute keeps the old id. -/
theorem C3_witness :
    tC3.modify_data (.list [mId2]) = (.ok (), { tC3 with messages := [mId2] }) ∧
    ((tC3.modify_data (.list [mId2])).2).arbitration_id = tC3.arbitration_id :=
  C3_modify_checks_only_internal_consistency tC3 (.list [mId2]) [mId2]
    (by decide) (by decide)

/-- Claim C4: construction succeeds exactly on inputs that — after
normalizing a single `Message` to a one-element sequence — are non-empty
lists or tuples of messages sharing the first message's arbitration id and
channel (`claimedValidInput`); on success the stored `arbitration_id` is
the first message's and the stored period is the given one, and on every
violation construction fails with a `ValueError` (the spec's
`InvalidArgument`). -/
theorem C4_construction_characterized (input : MessagesArg) (p : ℤ) :
    (claimedValidInput input = true →
      ∃ first rest, check_and_convert_messages input = .ok (first :: rest) ∧
        CyclicSendTask.init input p =
          .ok { arbitration_id := first.arbitration_id, period := p,
                messages := first :: rest }) ∧
    (claimedValidInput input = false →
      ∃ e, CyclicSendTask.init input p = .error e ∧ e.isValueError = true) := by
  cases input with
  | single m =>
    exact init_spec_of_uniform (.single m) [m] p rfl
      (by simp [claimedValidInput, claimedValidInput.claimedUniformNonEmpty])
  | list ms => exact init_spec_of_uniform (.list ms) ms p rfl rfl
  | tuple ms => exact init_spec_of_uniform (.tuple ms) ms p rfl rfl
  | other =>
    refine ⟨fun h => ?_, fun _ => ⟨.valueErrorNotListTupleMessage, rfl, rfl⟩⟩
    cases h

/-- Witness for C4: a valid two-message list constructs successfully and a
mixed-id list is rejected with a `ValueError`. -/
theorem C4_witness :
    (∃ first rest, check_and_convert_messages (.list [m401, m401b]) = .ok (first :: rest) ∧
       CyclicSendTask.init (.list [m401, m401b]) 1 =
         .ok { arbitration_id := first.arbitration_id, period := 1,
               messages := first :: rest }) ∧
    (∃ e, CyclicSendTask.init (.list [mId1, mId2]) 1 = .error e ∧ e.isValueError = true) :=
  ⟨(C4_construction_characterized (.list [m401, m401b]) 1).1 (by decide),
   (C4_construction_characterized (.list [mId1, mId2]) 1).2 (by decide)⟩

/-- Claim C5: `modify_data` with a validated new sequence of a different
length fails with the length-mismatch `ValueError` and leaves the task —
in particular its stored sequence — exactly as it was; more generally
every failing `modify_data` leaves the task unchanged, because the only
assignment in its body comes after both checks. -/
theorem C5_modify_length_mismatch_atomic (t : ThreadTask) (arg : MessagesArg) :
    (∀ msgs, check_and_convert_messages arg = .ok msgs →
        msgs.length ≠ t.messages.length →
        t.modify_data arg = (.error .valueErrorLengthMismatch, t)) ∧
    (∀ e, (t.modify_data arg).1 = .error e → (t.modify_data arg).2 = t) := by
  refine ⟨?_, fun e he => modify_data_error_snd t arg e he⟩
  intro msgs hok hne
  unfold ThreadTask.modify_data
  rw [hok]
  have hb : (t.messages.length != msgs.length) = true := bne_iff_ne.mpr (Ne.symm hne)
  simp [hb]

/-- Witness for C5: shrinking the two-message task `tF` to one message
fails with the length-mismatch error and leaves the task unchanged. -/
theorem C5_witness :
    tF.modify_data (.list [m401]) = (.error .valueErrorLengthMismatch, tF) :=
  (C5_modify_length_mismatch_atomic tF (.list [m401])).1 [m401] (by decide) (by decide)

/-- Counterexample to claim C10: even with a perfectly valid channel
argument (a one-element message list) forwarded into the messages
position, multi-rate construction does not behave as the forwarding
description (`MultiRateCyclicSendTask.initClaimed`) says: the
`super().__init__(channel, messages, subsequent_period)` call passes three
positional arguments to the two-parameter base `__init__`, so Python
raises `TypeError` before the base constructor runs, and construction
never succeeds. -/
theorem C10_counterexample :
    MultiRateCyclicSendTask.init (.list [m401]) 1 2 1 2 = .error .typeErrorTooManyArgs ∧
    MultiRateCyclicSendTask.initClaimed (.list [m401]) 1 2 1 2 =
      .ok { arbitration_id := 0x401, period := 1, messages := [m401] } ∧
    MultiRateCyclicSendTask.init (.list [m401]) 1 2 1 2 ≠
      MultiRateCyclicSendTask.initClaimed (.list [m401]) 1 2 1 2 := by decide

/-- Claim C10, amended: `MultiRateCyclicSendTaskABC.__init__` forwards
`(channel, messages, subsequent_period)` positionally to a base
constructor that accepts only `(messages, period)`, so every construction
— whatever the channel value — raises `TypeError`; no task is ever
produced and `count`, `initial_period` and `subsequent_period` are never
stored or used. -/
theorem C10_always_type_error (channel : MessagesArg)
    (messages count initial_period subsequent_period : ℤ) :
    MultiRateCyclicSendTask.init channel messages count initial_period subsequent_period =
      .error .typeErrorTooManyArgs ∧
    ∀ t, MultiRateCyclicSendTask.init channel messages count initial_period
        subsequent_period ≠ .ok t :=
  ⟨rfl, fun _ h => Except.noConfusion h⟩

/-- Claim C9: the run loop's message cursor starts at 0 and stays a valid
index into the current message sequence through every iteration and across
every caller action — including `modify_data`, which preserves the
sequence length — for any task whose sequence is non-empty (as every
constructed task's is). -/
theorem C9_msg_index_always_valid (t : ThreadTask) (t0 : ℤ) (envs : List IterEnv)
    (h : 0 < t.messages.length) :
    (ThreadTask.run t t0 envs).msgIndex <
      (ThreadTask.run t t0 envs).task.messages.length ∧
    (ThreadTask.run t t0 []).msgIndex = 0 :=
  ⟨runLoop_msgIndex_lt envs _ h, rfl⟩

/-- Witness for C9 on a run that sends, applies a successful
`modify_data`, sends again, and survives a send failure. -/
theorem C9_witness :
    0 < tF.messages.length ∧
    (ThreadTask.run tF 0 [envOk, envMod, envOk, envFail]).msgIndex <
      (ThreadTask.run tF 0 [envOk, envMod, envOk, envFail]).task.messages.length :=
  ⟨by decide, (C9_msg_index_always_valid tF 0 [envOk, envMod, envOk, envFail] (by decide)).1⟩

/-- Counterexample to claim C1: running the freshly started task `tF`
against an iteration whose `bus.send` raises, the loop logs the exception
and terminates, yet the task's `stopped` flag is still `false` — the
`break` on send failure (source line 173) never sets `self.stopped`, so
the running flag does not become false as the claim states. -/
theorem C1_counterexample :
    (ThreadTask.run tF 0 [envFail]).excLogged = 1 ∧
    (ThreadTask.run tF 0 [envFail]).task.stopped ≠ true := by decide

/-- Claim C1, amended: a transport send failure in any iteration is caught
inside the loop and logged (`excLogged` grows by one), and the loop
terminates immediately — the remaining iterations `rest` are never
consumed, nothing further is sent, and no exception escapes (the loop
total-functionally returns a state) — but the task object, in particular
its `stopped` flag, is left exactly as it was: the flag stays `false`, so
the STOPPED state is observable only through the thread having exited. -/
theorem C1_send_failure_terminates_loop (st : RunState) (env : IterEnv)
    (rest : List IterEnv) (hstop : env.stopRequest = false)
    (hmod : env.modifyArg = none) (hrun : st.task.stopped = false)
    (hfail : env.sendOk = false) :
    runLoop st (env :: rest) =
      { st with
        now := st.now + env.lockWait + env.sendDur,
        excLogged := st.excLogged + 1,
        trace := st.trace ++
          [.acquireLock, .recordStarted (st.now + env.lockWait), .logException,
           .releaseLock] } := by
  simp [runLoop, applyCaller, hstop, hmod, hrun, runIter, hfail]

/-- Witness for C1 (amended): the failing iteration of `tF` at time 0 with
one more iteration pending, which is never executed. -/
theorem C1_witness :
    ThreadTask.run tF 0 [envFail, envOk] =
      { task := tF, msgIndex := 0, now := 0, sendLog := [], excLogged := 1,
        trace := [.acquireLock, .recordStarted 0, .logException, .releaseLock] } := by
  have h := C1_send_failure_terminates_loop
    { task := tF, msgIndex := 0, now := 0, sendLog := [], excLogged := 0, trace := [] }
    envFail [envOk] rfl rfl (by decide) rfl
  exact h.trans (by decide)

/-- Counterexample to claim C7: the duration-1 task `tD` (end_time 1) runs
one iteration whose send takes 2 time units; the end-time check observes
expiry and the loop terminates — but the task's `stopped` flag is still
`false`, because the `break` on duration expiry (source line 175) never
sets `self.stopped`, so "running becomes false" fails. -/
theorem C7_counterexample :
    (ThreadTask.run tD 0 [envSlowSend]).trace.getLast? = some (.endTimeCheck true) ∧
    (ThreadTask.run tD 0 [envSlowSend]).sendLog = [m401] ∧
    (ThreadTask.run tD 0 [envSlowSend]).task.stopped ≠ true := by decide

/-- Claim C7, amended: the end-time check runs once per completed send,
after the send and before any index advance or sleep; when it observes
`end_time` passed the loop terminates at once — the iteration records the
completed send, leaves the cursor where it was, sleeps no further, and
consumes none of the remaining iterations, so no send ever follows a check
that observed expiry — but the task's `stopped` flag is left `false`
rather than set as the claim's "running becomes false" states. -/
theorem C7_end_time_check_terminates_after_send (st : RunState) (env : IterEnv)
    (rest : List IterEnv) (hstop : env.stopRequest = false)
    (hmod : env.modifyArg = none) (hrun : st.task.stopped = false)
    (hok : env.sendOk = true)
    (hpassed : endTimePassed st.task.end_time
      (st.now + env.lockWait + env.sendDur + env.checkGap) = true) :
    runLoop st (env :: rest) =
      { st with
        now := st.now + env.lockWait + env.sendDur + env.checkGap,
        sendLog := st.sendLog ++ (st.task.messages[st.msgIndex]?).toList,
        trace := st.trace ++
          [.acquireLock, .recordStarted (st.now + env.lockWait),
           .send st.task.messages[st.msgIndex]?, .releaseLock,
           .endTimeCheck true] } := by
  simp [runLoop, applyCaller, hstop, hmod, hrun, runIter, hok, hpassed]

/-- Witness for C7 (amended): `tD` with a 2-unit send and a pending second
iteration that is never executed. -/
theorem C7_witness :
    ThreadTask.run tD 0 [envSlowSend, envOk] =
      { task := tD, msgIndex := 0, now := 2, sendLog := [m401],
        trace := [.acquireLock, .recordStarted 0, .send (some m401), .releaseLock,
                  .endTimeCheck true],
        excLogged := 0 } := by
  have h := C7_end_time_check_terminates_after_send
    { task := tD, msgIndex := 0, now := 0, sendLog := [], excLogged := 0, trace := [] }
    envSlowSend [envOk] rfl rfl (by decide) rfl (by decide)
  exact h.trans (by decide)

/-- Counterexample to claim C6: with one time unit of lock wait, the
iteration's first event is the lock acquisition and only the second event
records `started = 1` — `started = time.time()` executes inside the `with
self.send_lock` block (source lines 167-168), not before it, so the
loop-start timestamp is not recorded before the lock is acquired (which
would have put `recordStarted 0` first), and the lock wait is excluded
from the elapsed time the sleep compensates. -/
theorem C6_counterexample :
    (ThreadTask.run tF 0 [envLockWait]).trace.head? = some .acquireLock ∧
    (ThreadTask.run tF 0 [envLockWait]).trace[1]? = some (.recordStarted 1) ∧
    (ThreadTask.run tF 0 [envLockWait]).trace.head? ≠ some (.recordStarted 0) := by decide

/-- Claim C6, amended: in every continuing iteration the timestamp `t0` is
recorded immediately after the lock is acquired (not before), the pacing
sleep lasts exactly `max 0 (period - elapsed)` where
`elapsed = now - t0` covers the send, the end-time check and the delay
computation (but not the lock wait), and the sleep duration is never
negative. -/
theorem C6_sleep_is_clamped_drift_compensation (st : RunState) (env : IterEnv)
    (hok : env.sendOk = true)
    (hnot : endTimePassed st.task.end_time
      (st.now + env.lockWait + env.sendDur + env.checkGap) = false) :
    (runIter st env).2 = true ∧
    (runIter st env).1.trace = st.trace ++
      [.acquireLock, .recordStarted (st.now + env.lockWait),
       .send st.task.messages[st.msgIndex]?, .releaseLock, .endTimeCheck false,
       .advanceIndex ((st.msgIndex + 1) % st.task.messages.length),
       .sleep (max 0 (st.task.period -
         (st.now + env.lockWait + env.sendDur + env.checkGap + env.delayGap -
           (st.now + env.lockWait))))] ∧
    st.now + env.lockWait + env.sendDur + env.checkGap + env.delayGap -
        (st.now + env.lockWait) =
      env.sendDur + env.checkGap + env.delayGap ∧
    (0:ℤ) ≤ max 0 (st.task.period -
      (st.now + env.lockWait + env.sendDur + env.checkGap + env.delayGap -
        (st.now + env.lockWait))) := by
  refine ⟨?_, ?_, by ring, le_max_left 0 _⟩
  · simp [runIter, hok, hnot]
  · simp [runIter, hok, hnot]

/-- Witness for C6 (amended): the uneventful iteration of `tF` at time 0
continues the loop. -/
theorem C6_witness :
    (runIter { task := tF, msgIndex := 0, now := 0, sendLog := [], excLogged := 0,
               trace := [] } envOk).2 = true :=
  (C6_sleep_is_clamped_drift_compensation
    { task := tF, msgIndex := 0, now := 0, sendLog := [], excLogged := 0, trace := [] }
    envOk rfl (by decide)).1
